import Mathlib

/-!
Shallow embedding of the classif.ai single-page client (`src/App.jsx`):
the upload zone, the grade-color mapping, the results renderer, and an
event-level small-step semantics of the App controller (view-state
machine plus the `setInterval`-based status poller).
-/

namespace ClassifAI

/-- Backend base URL, the constant `API_BASE_URL` in `App.jsx`. -/
def API_BASE_URL : String := "http://localhost:5000"

/-- JavaScript's `String.prototype.startsWith`, modelled on the character
sequence of the string. -/
def strStartsWith (s p : String) : Bool :=
  p.data.isPrefixOf s.data

/-! ## Upload zone (`UploadZone` component) -/

/-- A browser `File` as far as the client inspects it: its MIME type. -/
structure FileData where
  type : String
deriving DecidableEq, Repr

/-- The `handleDrop` handler of `UploadZone`: take the first dropped file
and forward it to `onFileSelect` only when its MIME type starts with
`image/`. Returns the argument passed to `onFileSelect`, or `none` when
`onFileSelect` is not invoked. -/
def handleDrop (files : List FileData) : Option FileData :=
  match files.head? with
  | some file => if strStartsWith file.type "image/" then some file else none
  | none => none

/-- The `handleFileInput` handler of `UploadZone`: forward the first
selected file to `onFileSelect` whenever one is present. The source
performs no MIME check here; the `accept` attribute only filters the
picker dialog. -/
def handleFileInput (files : List FileData) : Option FileData :=
  match files.head? with
  | some file => some file
  | none => none

/-- The interaction-relevant attributes `UploadZone` renders for a given
`isProcessing` prop: the container carries `pointer-events-none` exactly
when `isProcessing`, the hidden input has `disabled={isProcessing}`, and
the container click handler is guarded by `!isProcessing`. -/
structure UploadZoneRender where
  pointerEventsNone : Bool
  inputDisabled : Bool
  clickEnabled : Bool
deriving DecidableEq, Repr

def uploadZoneRender (isProcessing : Bool) : UploadZoneRender :=
  { pointerEventsNone := isProcessing
    inputDisabled := isProcessing
    clickEnabled := !isProcessing }

/-- A user interaction with the upload zone. -/
inductive Interaction where
  | click
  | drop (files : List FileData)
  | inputChange (files : List FileData)
deriving DecidableEq, Repr

/-- Browser event dispatch for the rendered upload zone, generic in the
drop and input handlers: an element with `pointer-events-none` receives
no pointer or drag events, and a disabled input fires no change event,
so the handlers run only when those attributes allow. A bare click only
opens the picker; any resulting selection arrives as an `inputChange`. -/
def uploadZoneDispatchWith (onDrop onInput : List FileData → Option FileData)
    (isProcessing : Bool) : Interaction → Option FileData
  | Interaction.click => none
  | Interaction.drop files =>
      if (uploadZoneRender isProcessing).pointerEventsNone then none else onDrop files
  | Interaction.inputChange files =>
      if (uploadZoneRender isProcessing).inputDisabled then none else onInput files

/-- Event dispatch with the source's own handlers plugged in. -/
def uploadZoneDispatch (isProcessing : Bool) : Interaction → Option FileData :=
  uploadZoneDispatchWith handleDrop handleFileInput isProcessing

/-! ## Grade color (`getGradeColor` in `ResultsView`) -/

def gradeTierBest : String := "linear-gradient(to bottom right, #10b981, #059669)"
def gradeTierSecond : String := "linear-gradient(to bottom right, #4A9FD8, #2E6FA8)"
def gradeTierThird : String := "linear-gradient(to bottom right, #FFD966, #FFA500)"
def gradeTierWorst : String := "linear-gradient(to bottom right, #ef4444, #dc2626)"

/-- `getGradeColor` from `ResultsView`. -/
def getGradeColor (grade : String) : String :=
  if strStartsWith grade "A" then gradeTierBest
  else if strStartsWith grade "B" then gradeTierSecond
  else if strStartsWith grade "C" then gradeTierThird
  else gradeTierWorst

/-! ## Data model of the grading result -/

/-- One entry of `results.sections`: a numbered issue with its error text. -/
structure Issue where
  number : Int
  error : String
deriving DecidableEq, Repr

/-- The results payload `GET /api/results/{jobId}` returns. -/
structure GradingResult where
  total_grade : String
  sections : List Issue
  pdfAnnotatedUrl : String
deriving DecidableEq, Repr

/-! ## Results renderer (`ResultsView` component) -/

/-- One rendered issue card: the number shown in the badge and the error
text beside it. -/
structure IssueRender where
  number : Int
  text : String
deriving DecidableEq, Repr

/-- The observable output of `ResultsView` for a given results payload:
grade text and color, the summary line under "Overall Grade", the
resolved annotated-image source, and the "Identified Issues" section
(`none` when the section is not rendered at all). -/
structure ResultsRender where
  gradeText : String
  gradeColor : String
  summary : String
  imageSrc : String
  issuesSection : Option (List IssueRender)
deriving DecidableEq, Repr

/-- The `ResultsView` rendering, translated from its JSX: the summary is
the "Perfect!" message exactly when `sections` is empty, the issues
section renders only when `sections.length > 0`, and it maps over
`sections` in order. -/
def renderResults (results : GradingResult) (annotatedImageUrl : String) : ResultsRender :=
  { gradeText := results.total_grade
    gradeColor := getGradeColor results.total_grade
    summary :=
      if results.sections.length = 0 then "Perfect! No errors found."
      else toString results.sections.length ++ " issue" ++
        (if results.sections.length ≠ 1 then "s" else "") ++ " identified"
    imageSrc := API_BASE_URL ++ annotatedImageUrl
    issuesSection :=
      if results.sections.length > 0 then
        some (results.sections.map fun e => { number := e.number, text := e.error })
      else none }

/-! ## App controller: state and event-level small-step semantics

The `App` component holds five `useState` cells. Asynchronous work
(`handleFileSelect`, the `setInterval` ticks of `pollJobStatus`, and the
fetches they await) is modelled as an event-driven small-step system: the
environment chooses which enabled event fires next (user actions, timer
firings, and fetch resolutions), and each event runs one synchronous
segment of the source between two await points atomically. -/

/-- The `currentStep` state: `'upload' | 'processing' | 'results'`. -/
inductive Step where
  | upload
  | processing
  | results
deriving DecidableEq, Repr

/-- The five `useState` cells of `App`. -/
structure AppState where
  currentStep : Step
  jobId : Option String
  progress : Int
  message : String
  results : Option GradingResult
deriving DecidableEq, Repr

/-- A `GET /api/grade/{id}` response body. -/
structure StatusData where
  status : String
  progress : Int
  message : String
deriving DecidableEq, Repr

/-- Where an in-flight `setInterval` tick of `pollJobStatus` is suspended:
awaiting its status fetch, or (after observing `done`) awaiting the
results fetch. -/
inductive TickPhase where
  | awaitingStatus
  | awaitingResults
deriving DecidableEq, Repr

/-- An in-flight tick of a `pollJobStatus` interval: its identity, the job
id captured by the closure, the interval it belongs to, and its phase. -/
structure Tick where
  id : Nat
  job : String
  timer : Nat
  phase : TickPhase
deriving DecidableEq, Repr

/-- An active interval created by `setInterval` in `pollJobStatus`,
together with the job id its closure polls. -/
structure TimerHandle where
  id : Nat
  job : String
deriving DecidableEq, Repr

/-- Ghost log of HTTP requests the client has issued, for stating
properties about which requests are sent. -/
inductive Req where
  | submitReq
  | statusReq (job : String)
  | resultsReq (job : String)
deriving DecidableEq, Repr

/-- A configuration of the running client: the React state, the in-flight
submit fetches, the active intervals, the in-flight ticks, the number of
`alert` calls shown, the request log, and a fresh-id counter. -/
structure Config where
  app : AppState
  pendingSubmits : List Nat
  timers : List TimerHandle
  ticks : List Tick
  alerts : Nat
  reqs : List Req
  nextId : Nat
deriving DecidableEq, Repr

/-- The initial values of the five `useState` cells. -/
def initialApp : AppState :=
  { currentStep := Step.upload, jobId := none, progress := 0, message := "", results := none }

/-- The initial configuration: initial state, nothing in flight. -/
def initConfig : Config :=
  { app := initialApp, pendingSubmits := [], timers := [], ticks := [],
    alerts := 0, reqs := [], nextId := 0 }

/-- The events the environment can fire: user actions (`selectFile`,
`reset`), interval firings, and resolutions of in-flight fetches with
the data the backend chose to answer. -/
inductive Ev where
  | selectFile
  | submitOk (sid : Nat) (job : String)
  | submitFail (sid : Nat)
  | timerFire (tid : Nat)
  | statusOk (kid : Nat) (d : StatusData)
  | statusFail (kid : Nat)
  | resultsOk (kid : Nat) (r : GradingResult)
  | resultsFail (kid : Nat)
  | reset
deriving DecidableEq, Repr

/-- Look up an in-flight tick by id. -/
def findTick (c : Config) (kid : Nat) : Option Tick :=
  c.ticks.find? fun t => t.id == kid

/-- Whether tick `kid` is in flight in phase `ph`. -/
def tickInPhase (c : Config) (kid : Nat) (ph : TickPhase) : Bool :=
  match findTick c kid with
  | some tk => decide (tk.phase = ph)
  | none => false

/-- The interval the in-flight tick `kid` belongs to (`0` when absent). -/
def tickTimer (c : Config) (kid : Nat) : Nat :=
  match findTick c kid with
  | some tk => tk.timer
  | none => 0

/-- Number of status fetches currently in flight. -/
def inFlightStatus (c : Config) : Nat :=
  (c.ticks.filter fun t => decide (t.phase = TickPhase.awaitingStatus)).length

/-- One event of the system. Each case runs the corresponding synchronous
segment of `App.jsx` atomically:

* `selectFile`: `handleFileSelect` up to its first await — only possible
  while the upload view (and hence `UploadZone`) is rendered; sets
  `processing`, progress 10, the uploading message, and issues the
  submit fetch.
* `submitOk`: the continuation after a successful submit response —
  `setJobId` and `pollJobStatus` (which registers a fresh interval).
* `submitFail`: the `catch` of `handleFileSelect` — alert, back to
  `upload`.
* `timerFire`: an active interval fires; the tick issues its status fetch
  immediately.
* `statusOk`: a status response arrives for a tick — always writes
  progress and message; on `done` clears that tick's interval and issues
  the results fetch; on `failed` clears the interval, alerts, and
  returns to `upload`; otherwise the tick just ends.
* `statusFail`: the tick's `catch` — clears its interval, alerts,
  returns to `upload`.
* `resultsOk`: the results fetch resolves — store the payload and show
  `results`.
* `resultsFail`: the results fetch fails; handled by the same `catch` as
  `statusFail`.
* `reset`: `handleReset`, reachable only from the rendered results view —
  restore every cell to its initial value.

Events whose subject is not in flight (or whose guard fails) are no-ops. -/
def step (c : Config) : Ev → Config
  | Ev.selectFile =>
      if c.app.currentStep = Step.upload then
        { c with
          app := { c.app with
            currentStep := Step.processing, progress := 10,
            message := "Uploading your proof..." }
          pendingSubmits := c.nextId :: c.pendingSubmits
          reqs := c.reqs ++ [Req.submitReq]
          nextId := c.nextId + 1 }
      else c
  | Ev.submitOk sid job =>
      if c.pendingSubmits.contains sid then
        { c with
          app := { c.app with jobId := some job }
          pendingSubmits := c.pendingSubmits.filter fun x => x != sid
          timers := { id := c.nextId, job := job } :: c.timers
          nextId := c.nextId + 1 }
      else c
  | Ev.submitFail sid =>
      if c.pendingSubmits.contains sid then
        { c with
          app := { c.app with currentStep := Step.upload }
          pendingSubmits := c.pendingSubmits.filter fun x => x != sid
          alerts := c.alerts + 1 }
      else c
  | Ev.timerFire tid =>
      match c.timers.find? (fun t => t.id == tid) with
      | some tm =>
          { c with
            ticks := c.ticks ++
              [{ id := c.nextId, job := tm.job, timer := tm.id,
                 phase := TickPhase.awaitingStatus }]
            reqs := c.reqs ++ [Req.statusReq tm.job]
            nextId := c.nextId + 1 }
      | none => c
  | Ev.statusOk kid d =>
      match findTick c kid with
      | some tk =>
          if tk.phase = TickPhase.awaitingStatus then
            if d.status = "done" then
              { c with
                app := { c.app with progress := d.progress, message := d.message }
                timers := c.timers.filter fun t => t.id != tk.timer
                ticks := c.ticks.map fun t =>
                  if t.id == kid then { t with phase := TickPhase.awaitingResults } else t
                reqs := c.reqs ++ [Req.resultsReq tk.job] }
            else if d.status = "failed" then
              { c with
                app := { c.app with
                  progress := d.progress, message := d.message,
                  currentStep := Step.upload }
                timers := c.timers.filter fun t => t.id != tk.timer
                ticks := c.ticks.filter fun t => t.id != kid
                alerts := c.alerts + 1 }
            else
              { c with
                app := { c.app with progress := d.progress, message := d.message }
                ticks := c.ticks.filter fun t => t.id != kid }
          else c
      | none => c
  | Ev.statusFail kid =>
      match findTick c kid with
      | some tk =>
          if tk.phase = TickPhase.awaitingStatus then
            { c with
              app := { c.app with currentStep := Step.upload }
              timers := c.timers.filter fun t => t.id != tk.timer
              ticks := c.ticks.filter fun t => t.id != kid
              alerts := c.alerts + 1 }
          else c
      | none => c
  | Ev.resultsOk kid r =>
      match findTick c kid with
      | some tk =>
          if tk.phase = TickPhase.awaitingResults then
            { c with
              app := { c.app with results := some r, currentStep := Step.results }
              ticks := c.ticks.filter fun t => t.id != kid }
          else c
      | none => c
  | Ev.resultsFail kid =>
      match findTick c kid with
      | some tk =>
          if tk.phase = TickPhase.awaitingResults then
            { c with
              app := { c.app with currentStep := Step.upload }
              timers := c.timers.filter fun t => t.id != tk.timer
              ticks := c.ticks.filter fun t => t.id != kid
              alerts := c.alerts + 1 }
          else c
      | none => c
  | Ev.reset =>
      if c.app.currentStep = Step.results ∧ c.app.results ≠ none then
        { c with app := initialApp }
      else c

/-- Run a list of events from the initial configuration. -/
def execTrace (evs : List Ev) : Config :=
  evs.foldl step initConfig

/-! ## Concrete traces used as witnesses and counterexamples -/

/-- The results payload of the spec's worked example. -/
def sampleResult : GradingResult :=
  { total_grade := "B+",
    sections := [{ number := 1, error := "missing base case" }],
    pdfAnnotatedUrl := "/static/annotated/x.jpg" }

/-- A clean run: select a file, submit succeeds with job `A`, one tick
polls, the status is terminal `done`, the results fetch succeeds. -/
def happyTrace : List Ev :=
  [Ev.selectFile, Ev.submitOk 0 "A", Ev.timerFire 1,
   Ev.statusOk 2 { status := "done", progress := 100, message := "Done" },
   Ev.resultsOk 2 sampleResult]

/-- The interval fires twice before the first tick's status fetch has
resolved: both ticks are then awaiting their status responses. -/
def overlapTrace : List Ev :=
  [Ev.selectFile, Ev.submitOk 0 "A", Ev.timerFire 1, Ev.timerFire 1]

/-- Job `A` is submitted and polled; its first tick's status fetch is slow.
A second tick errors, returning the view to `upload` and clearing job
`A`'s interval. The user uploads again (job `B`, interval id 5). Only then
does the stale first tick's response arrive reporting `done`, and its
results fetch succeeds, switching the view to `results` while job `B`'s
interval is still registered. -/
def staleTrace : List Ev :=
  [Ev.selectFile, Ev.submitOk 0 "A", Ev.timerFire 1, Ev.timerFire 1,
   Ev.statusFail 3, Ev.selectFile, Ev.submitOk 4 "B",
   Ev.statusOk 2 { status := "done", progress := 100, message := "Done" },
   Ev.resultsOk 2 { total_grade := "A", sections := [], pdfAnnotatedUrl := "/s.jpg" }]

/-- One non-terminal poll with progress 30, then a poll whose response is
the terminal `failed` status carrying progress 99 and message `boom`. -/
def pollFailTrace : List Ev :=
  [Ev.selectFile, Ev.submitOk 0 "A", Ev.timerFire 1,
   Ev.statusOk 2 { status := "processing", progress := 30, message := "Working" },
   Ev.timerFire 1,
   Ev.statusOk 3 { status := "failed", progress := 99, message := "boom" }]

/-- Job `A` has two ticks in flight (the interval fired twice before the
first response) when the second tick's status fetch fails: the poll
failure path runs while a same-job status fetch is still pending. -/
def pollFailStaleTrace : List Ev :=
  [Ev.selectFile, Ev.submitOk 0 "A", Ev.timerFire 1, Ev.timerFire 1, Ev.statusFail 3]

/-- Reaches `processing` with the submit fetch of id 0 still pending. -/
def submitPendingTrace : List Ev := [Ev.selectFile]

/-- Reaches `processing` with tick 2 awaiting its status response. -/
def tickPendingTrace : List Ev := [Ev.selectFile, Ev.submitOk 0 "A", Ev.timerFire 1]

/-- Reaches `processing` with tick 2 awaiting the results fetch. -/
def resultsPendingTrace : List Ev :=
  tickPendingTrace ++ [Ev.statusOk 2 { status := "done", progress := 100, message := "Done" }]

/-! ## Helper lemmas about the step semantics -/

/-- Whenever the rendered view is `results`, a results payload is stored:
the invariant is preserved by every event. -/
theorem step_results_nonnull (c : Config) (ev : Ev)
    (h : c.app.currentStep = Step.results → c.app.results ≠ none) :
    (step c ev).app.currentStep = Step.results → (step c ev).app.results ≠ none := by
  cases ev <;> simp only [step] <;> (repeat' split) <;> simp_all [initialApp]

/-- The `results`-nonnull invariant holds along any event sequence. -/
theorem foldl_results_nonnull (evs : List Ev) :
    ∀ c : Config, (c.app.currentStep = Step.results → c.app.results ≠ none) →
      ((evs.foldl step c).app.currentStep = Step.results →
        (evs.foldl step c).app.results ≠ none) := by
  induction evs with
  | nil => exact fun c h => h
  | cons e es ih => exact fun c h => ih (step c e) (step_results_nonnull c e h)

/-! ## Claims -/

/-- C1, counterexample. The claim says a non-image file selected via the
file picker never reaches `onFileSelect`, but `handleFileInput` performs
no MIME check: with the zone enabled, a change event carrying an
`application/pdf` file invokes `onFileSelect` with that file. -/
theorem C1_counterexample :
    uploadZoneDispatch false (Interaction.inputChange [⟨"application/pdf"⟩]) =
      some ⟨"application/pdf"⟩ ∧
    strStartsWith "application/pdf" "image/" = false := by
  constructor
  · rfl
  · decide

/-- C1, amended. For files dropped onto the upload zone, `onFileSelect`
is invoked only for MIME types beginning with `image/`, and a non-image
drop is a silent no-op; the file-picker change handler, by contrast,
forwards any selected file to `onFileSelect` without a MIME check (the
`accept` attribute only filters the picker dialog). -/
theorem C1_amended (files : List FileData) (f : FileData) :
    (handleDrop files = some f → strStartsWith f.type "image/" = true) ∧
    (∀ g, files.head? = some g → strStartsWith g.type "image/" = false →
      handleDrop files = none) ∧
    handleFileInput files = files.head? := by
  refine ⟨?_, ?_, ?_⟩
  · intro h
    cases files with
    | nil => simp [handleDrop] at h
    | cons g gs =>
      simp only [handleDrop, List.head?] at h
      by_cases hg : strStartsWith g.type "image/" = true
      · simp [hg] at h
        subst h
        exact hg
      · simp [hg] at h
  · intro g hg hni
    cases files with
    | nil => simp [handleDrop]
    | cons g0 gs =>
      simp only [List.head?, Option.some.injEq] at hg
      subst hg
      simp [handleDrop, hni]
  · cases files <;> simp [handleFileInput]

/-- C1, witness for the amended theorem at a concrete non-image file:
dropped it is ignored, picked it is forwarded. -/
theorem C1_amended_witness :
    handleDrop [⟨"application/pdf"⟩] = none ∧
    handleFileInput [⟨"application/pdf"⟩] = some ⟨"application/pdf"⟩ := by
  constructor
  · exact (C1_amended [⟨"application/pdf"⟩] ⟨"application/pdf"⟩).2.1
      ⟨"application/pdf"⟩ rfl (by decide)
  · exact ((C1_amended [⟨"application/pdf"⟩] ⟨"application/pdf"⟩).2.2).trans rfl

/-- C2, counterexample. The claim says a Job (non-null `jobId`) exists iff
the view state is `processing`, but on the clean run to `results` the
code never clears `jobId`: the final configuration is in `results` with
`jobId` still `some "A"`, refuting the iff. -/
theorem C2_counterexample :
    (execTrace happyTrace).app.currentStep = Step.results ∧
    (execTrace happyTrace).app.jobId = some "A" ∧
    ¬((execTrace happyTrace).app.jobId ≠ none ↔
      (execTrace happyTrace).app.currentStep = Step.processing) := by
  decide

/-- C2, amended. `jobId` is written only by a successful submit response
(to the new job id) and by explicit reset (to null); `results` is written
only by a successful results fetch (to the payload) and by reset (to
null) — in particular neither is discarded on failure transitions. The
other direction of the claim that survives: whenever the view state is
`results`, a grading result is present. -/
theorem C2_amended_lifecycle :
    (∀ (c : Config) (ev : Ev),
      ((step c ev).app.jobId = c.app.jobId ∨
       (∃ sid j, ev = Ev.submitOk sid j ∧ (step c ev).app.jobId = some j) ∨
       (ev = Ev.reset ∧ (step c ev).app.jobId = none)) ∧
      ((step c ev).app.results = c.app.results ∨
       (∃ kid r, ev = Ev.resultsOk kid r ∧ (step c ev).app.results = some r) ∨
       (ev = Ev.reset ∧ (step c ev).app.results = none))) ∧
    (∀ evs : List Ev, (execTrace evs).app.currentStep = Step.results →
      (execTrace evs).app.results ≠ none) := by
  constructor
  · intro c ev
    constructor
    · cases ev with
      | submitOk sid j =>
        by_cases h : sid ∈ c.pendingSubmits
        · exact Or.inr (Or.inl ⟨sid, j, rfl, by simp [step, h]⟩)
        · exact Or.inl (by simp [step, h])
      | reset =>
        by_cases h : c.app.currentStep = Step.results ∧ c.app.results ≠ none
        · exact Or.inr (Or.inr ⟨rfl, by simp [step, h, initialApp]⟩)
        · exact Or.inl (by simp [step, h])
      | _ => exact Or.inl (by simp only [step]; (repeat' split) <;> rfl)
    · cases ev with
      | resultsOk kid r =>
        by_cases h : tickInPhase c kid TickPhase.awaitingResults = true
        · refine Or.inr (Or.inl ⟨kid, r, rfl, ?_⟩)
          unfold tickInPhase at h
          cases hf : findTick c kid with
          | none => simp [hf] at h
          | some tk =>
            simp only [hf] at h
            simp only [step, hf]
            simp at h
            simp [h]
        · left
          unfold tickInPhase at h
          cases hf : findTick c kid with
          | none => simp only [step, hf]
          | some tk =>
            simp only [hf] at h
            simp only [step, hf]
            simp at h
            simp [h]
      | reset =>
        by_cases h : c.app.currentStep = Step.results ∧ c.app.results ≠ none
        · exact Or.inr (Or.inr ⟨rfl, by simp [step, h, initialApp]⟩)
        · exact Or.inl (by simp [step, h])
      | _ => exact Or.inl (by simp only [step]; (repeat' split) <;> rfl)
  · intro evs
    exact foldl_results_nonnull evs initConfig (by simp [initConfig, initialApp])

/-- C2, witness: the amended theorem applied on the clean run — the final
configuration is in `results` and its stored payload is non-null. -/
theorem C2_amended_witness : (execTrace happyTrace).app.results ≠ none :=
  C2_amended_lifecycle.2 happyTrace (by decide)

/-- C3, counterexample. The claim says two status fetches for the same
job are never in flight concurrently, but `setInterval` does not await
the async tick callback: when the interval fires twice before the first
status response arrives, two status fetches for job `A` are in flight at
once (and the request log shows both issued with no response between). -/
theorem C3_counterexample :
    inFlightStatus (execTrace overlapTrace) = 2 ∧
    (execTrace overlapTrace).reqs =
      [Req.submitReq, Req.statusReq "A", Req.statusReq "A"] := by
  decide

/-- C3, amended. The interval issues a new status fetch on every firing
regardless of fetches still in flight (so overlapping fetches are
possible), and each response is processed atomically on arrival: the
display takes exactly that response's progress and message — last write
wins in arrival order, not request order. -/
theorem C3_amended_overlap (c : Config) (kid tid : Nat) (d : StatusData) :
    (tickInPhase c kid TickPhase.awaitingStatus = true →
      (step c (Ev.statusOk kid d)).app.progress = d.progress ∧
      (step c (Ev.statusOk kid d)).app.message = d.message) ∧
    (∀ tm, c.timers.find? (fun t => t.id == tid) = some tm →
      inFlightStatus (step c (Ev.timerFire tid)) = inFlightStatus c + 1) := by
  constructor
  · intro h
    unfold tickInPhase at h
    cases hf : findTick c kid with
    | none => simp [hf] at h
    | some tk =>
      simp only [hf] at h
      simp at h
      simp only [step, hf]
      simp [h]
      split_ifs <;> simp
  · intro tm hf
    simp [step, hf, inFlightStatus, List.filter_append]

/-- C3, witness: with tick 2 of job `A` awaiting its response, a second
interval firing leaves two status fetches in flight, and tick 2's late
response still overwrites the display with its own data. -/
theorem C3_amended_witness :
    inFlightStatus (step (execTrace tickPendingTrace) (Ev.timerFire 1)) =
      inFlightStatus (execTrace tickPendingTrace) + 1 ∧
    (step (execTrace tickPendingTrace)
      (Ev.statusOk 2 { status := "processing", progress := 55, message := "late" })).app.progress
      = 55 := by
  constructor
  · exact (C3_amended_overlap (execTrace tickPendingTrace) 2 1
      { status := "processing", progress := 55, message := "late" }).2
      { id := 1, job := "A" } (by decide)
  · exact ((C3_amended_overlap (execTrace tickPendingTrace) 2 1
      { status := "processing", progress := 55, message := "late" }).1 (by decide)).1

/-- C4, confirmed. While `isProcessing` is true the rendered zone carries
`pointer-events-none` (so no click or drop event is delivered), the
hidden input is `disabled` (so no change event fires), and the click
handler is additionally guarded — hence no interaction produces a call
to `onFileSelect`, for arbitrary drop and input handlers: the
interaction is disabled before any handler could filter it. -/
theorem C4_processing_blocks_all_interaction
    (onDrop onInput : List FileData → Option FileData) (ev : Interaction) :
    uploadZoneDispatchWith onDrop onInput true ev = none := by
  cases ev <;> simp [uploadZoneDispatchWith, uploadZoneRender]

/-- C4, witness: with the source's own handlers, an image drop and an
image pick are both ignored while `isProcessing` is true. -/
theorem C4_witness :
    uploadZoneDispatch true (Interaction.drop [⟨"image/png"⟩]) = none ∧
    uploadZoneDispatch true (Interaction.inputChange [⟨"image/png"⟩]) = none := by
  constructor
  · exact C4_processing_blocks_all_interaction handleDrop handleFileInput
      (Interaction.drop [⟨"image/png"⟩])
  · exact C4_processing_blocks_all_interaction handleDrop handleFileInput
      (Interaction.inputChange [⟨"image/png"⟩])

/-- C5, confirmed. The machine starts in `upload`; file selection from
`upload` always enters `processing`, and nothing but file selection
enters `processing` from `upload`; no event moves `results` directly to
`processing`; from `processing` both `results` (clean run) and `upload`
(submit failure) are reached; from `results`, reset returns to `upload`,
and the machine is re-enterable: selecting a file again reaches
`processing`. -/
theorem C5_state_machine :
    initConfig.app.currentStep = Step.upload ∧
    (∀ c : Config, c.app.currentStep = Step.upload →
      (step c Ev.selectFile).app.currentStep = Step.processing) ∧
    (∀ (c : Config) (ev : Ev), c.app.currentStep = Step.upload →
      (step c ev).app.currentStep = Step.processing → ev = Ev.selectFile) ∧
    (∀ (c : Config) (ev : Ev), c.app.currentStep = Step.results →
      (step c ev).app.currentStep ≠ Step.processing) ∧
    (execTrace [Ev.selectFile]).app.currentStep = Step.processing ∧
    (execTrace happyTrace).app.currentStep = Step.results ∧
    (execTrace [Ev.selectFile, Ev.submitFail 0]).app.currentStep = Step.upload ∧
    (execTrace (happyTrace ++ [Ev.reset])).app.currentStep = Step.upload ∧
    (execTrace (happyTrace ++ [Ev.reset, Ev.selectFile])).app.currentStep =
      Step.processing := by
  refine ⟨rfl, ?_, ?_, ?_, by decide, by decide, by decide, by decide, by decide⟩
  · intro c h
    simp [step, h]
  · intro c ev h h2
    cases ev <;> simp only [step] at h2 <;>
      first
      | rfl
      | ((repeat' split at h2) <;> simp_all [initialApp])
  · intro c ev h
    cases ev <;> simp only [step] <;> (repeat' split) <;> simp_all [initialApp]

/-- C5, witness: the universally quantified transitions applied at
concrete reachable configurations. -/
theorem C5_witness :
    (step initConfig Ev.selectFile).app.currentStep = Step.processing ∧
    (step (execTrace happyTrace) Ev.reset).app.currentStep ≠ Step.processing := by
  constructor
  · exact C5_state_machine.2.1 initConfig rfl
  · exact C5_state_machine.2.2.2.1 (execTrace happyTrace) Ev.reset (by decide)

/-- C6, counterexample. The claim says every failure transition discards
any in-flight job. On `pollFailStaleTrace` a poll request failure raises
its alert and returns the view to `upload`, but the in-flight job `A` is
not discarded: `jobId` is still `some "A"`, and the job's other status
fetch (tick 2) is still in flight awaiting its response. -/
theorem C6_counterexample :
    (execTrace pollFailStaleTrace).app.currentStep = Step.upload ∧
    (execTrace pollFailStaleTrace).alerts = 1 ∧
    (execTrace pollFailStaleTrace).app.jobId = some "A" ∧
    tickInPhase (execTrace pollFailStaleTrace) 2 TickPhase.awaitingStatus = true := by
  decide

/-- C6, amended. The four error classes — submit failure, poll request
failure, backend-reported terminal `failed` status, and results-fetch
failure — are handled identically: exactly one alert is raised, the view
state returns unconditionally to `upload`, no new request is issued (no
retry), and the erroring request itself is discarded (the pending submit
removed; a failing poll tick clears its own interval). The in-flight job
however is not discarded: `jobId` retains its prior value on every one
of the four failure paths. -/
theorem C6_amended_uniform (c : Config) (sid kid : Nat) (d : StatusData) :
    (sid ∈ c.pendingSubmits →
      (step c (Ev.submitFail sid)).app.currentStep = Step.upload ∧
      (step c (Ev.submitFail sid)).alerts = c.alerts + 1 ∧
      (step c (Ev.submitFail sid)).reqs = c.reqs ∧
      sid ∉ (step c (Ev.submitFail sid)).pendingSubmits ∧
      (step c (Ev.submitFail sid)).app.jobId = c.app.jobId) ∧
    (tickInPhase c kid TickPhase.awaitingStatus = true →
      (step c (Ev.statusFail kid)).app.currentStep = Step.upload ∧
      (step c (Ev.statusFail kid)).alerts = c.alerts + 1 ∧
      (step c (Ev.statusFail kid)).reqs = c.reqs ∧
      ((step c (Ev.statusFail kid)).timers.all fun t => t.id != tickTimer c kid) = true ∧
      (step c (Ev.statusFail kid)).app.jobId = c.app.jobId) ∧
    (tickInPhase c kid TickPhase.awaitingStatus = true → d.status = "failed" →
      (step c (Ev.statusOk kid d)).app.currentStep = Step.upload ∧
      (step c (Ev.statusOk kid d)).alerts = c.alerts + 1 ∧
      (step c (Ev.statusOk kid d)).reqs = c.reqs ∧
      ((step c (Ev.statusOk kid d)).timers.all fun t => t.id != tickTimer c kid) = true ∧
      (step c (Ev.statusOk kid d)).app.jobId = c.app.jobId) ∧
    (tickInPhase c kid TickPhase.awaitingResults = true →
      (step c (Ev.resultsFail kid)).app.currentStep = Step.upload ∧
      (step c (Ev.resultsFail kid)).alerts = c.alerts + 1 ∧
      (step c (Ev.resultsFail kid)).reqs = c.reqs ∧
      (step c (Ev.resultsFail kid)).app.jobId = c.app.jobId) := by
  refine ⟨?_, ?_, ?_, ?_⟩
  · intro h
    simp [step, h, List.mem_filter]
  · intro h
    unfold tickInPhase at h
    cases hf : findTick c kid with
    | none => simp [hf] at h
    | some tk =>
      simp only [hf] at h
      simp at h
      simp only [step, hf]
      simp [h, tickTimer, hf, List.all_eq_true, List.mem_filter]
  · intro h hd
    unfold tickInPhase at h
    cases hf : findTick c kid with
    | none => simp [hf] at h
    | some tk =>
      simp only [hf] at h
      simp at h
      simp only [step, hf]
      simp [h, hd, tickTimer, hf, List.all_eq_true, List.mem_filter]
  · intro h
    unfold tickInPhase at h
    cases hf : findTick c kid with
    | none => simp [hf] at h
    | some tk =>
      simp only [hf] at h
      simp at h
      simp only [step, hf]
      simp [h]

/-- C6, witness: one concrete instance of each of the four error classes,
each alerting once, returning the view to `upload`, and retaining the
job id. -/
theorem C6_amended_witness :
    (step (execTrace submitPendingTrace) (Ev.submitFail 0)).app.currentStep = Step.upload ∧
    (step (execTrace tickPendingTrace) (Ev.statusFail 2)).alerts =
      (execTrace tickPendingTrace).alerts + 1 ∧
    (step (execTrace tickPendingTrace) (Ev.statusFail 2)).app.jobId =
      (execTrace tickPendingTrace).app.jobId ∧
    (step (execTrace tickPendingTrace)
      (Ev.statusOk 2 { status := "failed", progress := 0, message := "" })).app.currentStep =
      Step.upload ∧
    (step (execTrace resultsPendingTrace) (Ev.resultsFail 2)).app.currentStep =
      Step.upload := by
  refine ⟨?_, ?_, ?_, ?_, ?_⟩
  · exact ((C6_amended_uniform (execTrace submitPendingTrace) 0 0
      { status := "", progress := 0, message := "" }).1 (by decide)).1
  · exact ((C6_amended_uniform (execTrace tickPendingTrace) 0 2
      { status := "", progress := 0, message := "" }).2.1 (by decide)).2.1
  · exact ((C6_amended_uniform (execTrace tickPendingTrace) 0 2
      { status := "", progress := 0, message := "" }).2.1 (by decide)).2.2.2.2
  · exact ((C6_amended_uniform (execTrace tickPendingTrace) 0 2
      { status := "failed", progress := 0, message := "" }).2.2.1 (by decide) rfl).1
  · exact ((C6_amended_uniform (execTrace resultsPendingTrace) 0 2
      { status := "", progress := 0, message := "" }).2.2.2 (by decide)).1

/-- C7, code_bug. The claim (and the spec's poller contract) requires
that no transition away from `processing` leaves a polling loop running.
On `staleTrace` the code violates this: a delayed status response of the
abandoned job `A` arrives after job `B` has started polling, reports
`done`, and its results fetch switches the view from `processing` to
`results` — while job `B`'s interval (id 5) is still registered, and its
next firing issues a further status request for job `B`. -/
theorem C7_timer_leak :
    (execTrace (staleTrace.take 8)).app.currentStep = Step.processing ∧
    (execTrace staleTrace).app.currentStep = Step.results ∧
    (execTrace staleTrace).timers = [{ id := 5, job := "B" }] ∧
    (step (execTrace staleTrace) (Ev.timerFire 5)).reqs =
      (execTrace staleTrace).reqs ++ [Req.statusReq "B"] := by
  decide

/-- C8, confirmed. `getGradeColor` buckets by the lexical leading letter:
grades starting with `A` map to the best tier, with `B` to the second,
with `C` to the third, and everything else to the worst tier; the four
tiers are pairwise distinct colors. -/
theorem C8_grade_bucketing (g : String) :
    (strStartsWith g "A" = true → getGradeColor g = gradeTierBest) ∧
    (strStartsWith g "A" = false → strStartsWith g "B" = true →
      getGradeColor g = gradeTierSecond) ∧
    (strStartsWith g "A" = false → strStartsWith g "B" = false →
      strStartsWith g "C" = true → getGradeColor g = gradeTierThird) ∧
    (strStartsWith g "A" = false → strStartsWith g "B" = false →
      strStartsWith g "C" = false → getGradeColor g = gradeTierWorst) ∧
    (gradeTierBest ≠ gradeTierSecond ∧ gradeTierBest ≠ gradeTierThird ∧
     gradeTierBest ≠ gradeTierWorst ∧ gradeTierSecond ≠ gradeTierThird ∧
     gradeTierSecond ≠ gradeTierWorst ∧ gradeTierThird ≠ gradeTierWorst) := by
  refine ⟨?_, ?_, ?_, ?_, by decide⟩
  · intro h
    simp [getGradeColor, h]
  · intro hA hB
    simp [getGradeColor, hA, hB]
  · intro hA hB hC
    simp [getGradeColor, hA, hB, hC]
  · intro hA hB hC
    simp [getGradeColor, hA, hB, hC]

/-- C8, witness: `A-` buckets with the best tier, `B` with the second,
`C+` with the third, and `D` with the worst. -/
theorem C8_witness :
    getGradeColor "A-" = gradeTierBest ∧
    getGradeColor "B" = gradeTierSecond ∧
    getGradeColor "C+" = gradeTierThird ∧
    getGradeColor "D" = gradeTierWorst := by
  refine ⟨?_, ?_, ?_, ?_⟩
  · exact (C8_grade_bucketing "A-").1 (by decide)
  · exact (C8_grade_bucketing "B").2.1 (by decide) (by decide)
  · exact (C8_grade_bucketing "C+").2.2.1 (by decide) (by decide) (by decide)
  · exact (C8_grade_bucketing "D").2.2.2.1 (by decide) (by decide) (by decide)

/-- C9, confirmed. With an empty `sections` list the renderer shows the
distinct success message and omits the issues section entirely; with a
non-empty list it renders the issues section as the received sequence in
order, each entry carrying its given number and error text (element `k`
of the rendered list is exactly element `k` of `sections`). -/
theorem C9_results_rendering (results : GradingResult) (url : String) :
    (results.sections = [] →
      (renderResults results url).summary = "Perfect! No errors found." ∧
      (renderResults results url).issuesSection = none) ∧
    (results.sections ≠ [] →
      (renderResults results url).issuesSection =
        some (results.sections.map fun e => { number := e.number, text := e.error })) ∧
    (∀ l, (renderResults results url).issuesSection = some l →
      ∀ k : Nat,
        l[k]? = results.sections[k]?.map fun e => { number := e.number, text := e.error }) := by
  refine ⟨?_, ?_, ?_⟩
  · intro h
    simp [renderResults, h]
  · intro h
    have hl : 0 < results.sections.length := List.length_pos.mpr h
    simp [renderResults, hl]
  · intro l h k
    simp only [renderResults] at h
    split at h
    · next hlen =>
      simp at h
      subst h
      simp
    · simp at h

/-- C9, witness: the spec's worked payload renders its single issue with
number 1 and its text, and an empty payload renders the success message
with no issues section. -/
theorem C9_witness :
    (renderResults sampleResult "/static/annotated/x.jpg").issuesSection =
      some [{ number := 1, text := "missing base case" }] ∧
    (renderResults { total_grade := "A", sections := [], pdfAnnotatedUrl := "/s.jpg" }
      "/s.jpg").summary = "Perfect! No errors found." ∧
    (renderResults { total_grade := "A", sections := [], pdfAnnotatedUrl := "/s.jpg" }
      "/s.jpg").issuesSection = none := by
  refine ⟨?_, ?_, ?_⟩
  · exact ((C9_results_rendering sampleResult "/static/annotated/x.jpg").2.1
      (by decide)).trans (by decide)
  · exact ((C9_results_rendering
      { total_grade := "A", sections := [], pdfAnnotatedUrl := "/s.jpg" } "/s.jpg").1 rfl).1
  · exact ((C9_results_rendering
      { total_grade := "A", sections := [], pdfAnnotatedUrl := "/s.jpg" } "/s.jpg").1 rfl).2

/-- C10, counterexample. The claim says failure transitions change only
the view state, with progress and message retaining their prior values.
On `pollFailTrace` the state before the terminal `failed` response has
progress 30 and message `Working`; processing the `failed` response
moves the view to `upload` but also overwrites progress to 99 and the
message to `boom` — the response's values, not the prior ones. -/
theorem C10_counterexample :
    (execTrace (pollFailTrace.take 4)).app.currentStep = Step.processing ∧
    (execTrace (pollFailTrace.take 4)).app.progress = 30 ∧
    (execTrace (pollFailTrace.take 4)).app.message = "Working" ∧
    (execTrace pollFailTrace).app.currentStep = Step.upload ∧
    (execTrace pollFailTrace).app.progress = 99 ∧
    (execTrace pollFailTrace).app.message = "boom" := by
  decide

/-- C10, amended. On submit failure, poll request failure, and
results-fetch failure only `currentStep` changes among the React cells
(progress, message, jobId and results retain their prior values); on a
terminal `failed` status the poller first writes the response's progress
and message and then changes only `currentStep`, retaining jobId and
results; only the explicit reset handler restores the initial values
(upload view, jobId null, progress 0, empty message, null results). -/
theorem C10_amended_frame (c : Config) (sid kid : Nat) (d : StatusData) :
    (sid ∈ c.pendingSubmits →
      (step c (Ev.submitFail sid)).app = { c.app with currentStep := Step.upload }) ∧
    (tickInPhase c kid TickPhase.awaitingStatus = true →
      (step c (Ev.statusFail kid)).app = { c.app with currentStep := Step.upload }) ∧
    (tickInPhase c kid TickPhase.awaitingStatus = true → d.status = "failed" →
      (step c (Ev.statusOk kid d)).app =
        { c.app with currentStep := Step.upload, progress := d.progress,
                     message := d.message }) ∧
    (tickInPhase c kid TickPhase.awaitingResults = true →
      (step c (Ev.resultsFail kid)).app = { c.app with currentStep := Step.upload }) ∧
    (c.app.currentStep = Step.results → c.app.results ≠ none →
      (step c Ev.reset).app = initialApp) := by
  refine ⟨?_, ?_, ?_, ?_, ?_⟩
  · intro h
    simp [step, h]
  · intro h
    unfold tickInPhase at h
    cases hf : findTick c kid with
    | none => simp [hf] at h
    | some tk =>
      simp only [hf] at h
      simp at h
      simp only [step, hf]
      simp [h]
  · intro h hd
    unfold tickInPhase at h
    cases hf : findTick c kid with
    | none => simp [hf] at h
    | some tk =>
      simp only [hf] at h
      simp at h
      simp only [step, hf]
      simp [h, hd]
  · intro h
    unfold tickInPhase at h
    cases hf : findTick c kid with
    | none => simp [hf] at h
    | some tk =>
      simp only [hf] at h
      simp at h
      simp only [step, hf]
      simp [h]
  · intro h1 h2
    simp [step, h1, h2]

/-- C10, witness for the amended frame conditions at concrete reachable
configurations: a submit failure changes only the view state, a terminal
`failed` poll writes the response's progress and message, and reset from
the results view restores the initial cells. -/
theorem C10_amended_witness :
    (step (execTrace submitPendingTrace) (Ev.submitFail 0)).app =
      { (execTrace submitPendingTrace).app with currentStep := Step.upload } ∧
    (step (execTrace tickPendingTrace)
      (Ev.statusOk 2 { status := "failed", progress := 99, message := "boom" })).app =
      { (execTrace tickPendingTrace).app with currentStep := Step.upload,
                                              progress := 99, message := "boom" } ∧
    (step (execTrace happyTrace) Ev.reset).app = initialApp := by
  refine ⟨?_, ?_, ?_⟩
  · exact (C10_amended_frame (execTrace submitPendingTrace) 0 0
      { status := "", progress := 0, message := "" }).1 (by decide)
  · exact (C10_amended_frame (execTrace tickPendingTrace) 0 2
      { status := "failed", progress := 99, message := "boom" }).2.2.1 (by decide) rfl
  · exact (C10_amended_frame (execTrace happyTrace) 0 0
      { status := "", progress := 0, message := "" }).2.2.2.2 (by decide) (by decide)

end ClassifAI
